import Mathlib

/-!
Verification of the MedAssist AI message-triage core against its
natural-language specification.

The development shallowly embeds the Python modules
`app/ai_engine/intent_classifier.py`, `app/triage/triage_engine.py`,
`app/triage/emergency_orchestrator.py`, `app/ai_engine/guardrails.py` and the
slot-lock primitive of `app/api/appointments.py` as executable Lean
definitions, and proves the specified properties about them.

Modelling conventions:
* Python `str` is modelled by Lean `String`; `s.lower()` by mapping
  `Char.toLower` over the characters; the Python substring test `a in b` by an
  executable character-list scan (`pyContains`).
* Python `float` severity weights are exact multiples of 1/100, so the triage
  engine is embedded over natural numbers in hundredths (1.0 ↦ 100,
  0.95 ↦ 95, …); every threshold of the source (0.8, 0.5, 0.9, 0.15, 0.03,
  baseline 0.1) is likewise scaled by 100.  `round(score, 3)` is the identity
  on integer multiples of 1/100 and is therefore dropped.
* The text-generation collaborator (`llm_client.chat`) together with the
  library call `json.loads` is modelled by a `ChatResult` environment value:
  the collaborator may raise, return no text, or return text whose JSON parse
  outcome is carried as an `Option Json` (markdown-fence stripping is absorbed
  into the parse outcome, `none` standing for unparsable text).
* Python `datetime` values compared by the slot lock are modelled as natural
  numbers (seconds); `timedelta(seconds=120)` becomes `+ 120`.
-/

namespace MedAssist

/-- Executable check that `n` is a prefix of `h`, over character lists. -/
def listPre (n h : List Char) : Bool :=
  match n, h with
  | [], _ => true
  | _ :: _, [] => false
  | a :: n', b :: h' => a == b && listPre n' h'

/-- Executable substring scan over character lists. -/
def listSub (n h : List Char) : Bool :=
  match h with
  | [] => n.isEmpty
  | _ :: t => listPre n h || listSub n t

/-- Model of the Python containment test `needle in hay` on strings. -/
def pyContains (hay needle : String) : Bool :=
  listSub needle.data hay.data

/-- Model of Python `s.lower()` (the repository only lowercases ASCII text). -/
def pyLower (s : String) : String :=
  ⟨s.data.map Char.toLower⟩

/-- Intent enum of `app/models/schemas.py` (`IntentType`). -/
inductive IntentType where
  | general_query
  | appointment_request
  | doctor_info
  | symptom_report
  | emergency
  | insurance
  | complaint
  | greeting
  | farewell
deriving DecidableEq, Repr

/-- Urgency enum of `app/models/schemas.py` (`UrgencyLevel`). -/
inductive UrgencyLevel where
  | non_urgent
  | urgent
  | critical
deriving DecidableEq, Repr

/-- Model of a decoded JSON value, the output of the library call
`json.loads` on the collaborator's reply text. -/
inductive Json where
  | null
  | bool (b : Bool)
  | num (q : ℚ)
  | str (s : String)
  | arr (elems : List Json)
  | obj (fields : List (String × Json))

/-- Python `Enum` lookup `IntentType(value)`: `some` on a valid enum value,
`none` where Python raises `ValueError`. -/
def IntentType.ofString (s : String) : Option IntentType :=
  if s = "general_query" then some .general_query
  else if s = "appointment_request" then some .appointment_request
  else if s = "doctor_info" then some .doctor_info
  else if s = "symptom_report" then some .symptom_report
  else if s = "emergency" then some .emergency
  else if s = "insurance" then some .insurance
  else if s = "complaint" then some .complaint
  else if s = "greeting" then some .greeting
  else if s = "farewell" then some .farewell
  else none

/-- Python `Enum` lookup `UrgencyLevel(value)`. -/
def UrgencyLevel.ofString (s : String) : Option UrgencyLevel :=
  if s = "non_urgent" then some .non_urgent
  else if s = "urgent" then some .urgent
  else if s = "critical" then some .critical
  else none

/-- Pydantic model `AIClassification` of `app/models/schemas.py`, with the
same field defaults.  Confidence values are stored but never computed with. -/
structure AIClassification where
  intent : IntentType
  urgency : UrgencyLevel := UrgencyLevel.non_urgent
  department : Option String := none
  needs_ambulance : Bool := false
  confidence : ℚ := 0.0
  entities : Option (List (String × Json)) := none

/-- Python `dict` lookup on a decoded JSON object (first binding wins,
matching `dict` key uniqueness). -/
def Json.lookupField (fields : List (String × Json)) (key : String) : Option Json :=
  (fields.find? (fun p => p.1 == key)).map (fun p => p.2)

/-- Emergency trigger table of `_check_emergency_rules`
(`intent_classifier.py`, lines 102-126), in source order. -/
def emergency_triggers : List (String × String) :=
  [("chest pain", "cardiology"),
   ("heart attack", "cardiology"),
   ("can't breathe", "pulmonology"),
   ("cannot breathe", "pulmonology"),
   ("difficulty breathing", "pulmonology"),
   ("choking", "emergency"),
   ("severe bleeding", "emergency"),
   ("bleeding heavily", "emergency"),
   ("seizure", "neurology"),
   ("convulsion", "neurology"),
   ("unconscious", "emergency"),
   ("not conscious", "emergency"),
   ("passed out", "emergency"),
   ("stroke", "neurology"),
   ("slurred speech", "neurology"),
   ("face drooping", "neurology"),
   ("severe burn", "emergency"),
   ("poisoning", "emergency"),
   ("overdose", "emergency"),
   ("suicidal", "psychiatry"),
   ("suicide", "psychiatry"),
   ("anaphylaxis", "emergency"),
   ("allergic reaction severe", "emergency")]

/-- Embedding of `_check_emergency_rules` (`intent_classifier.py`): scan the
lower-cased message for the first matching trigger phrase. -/
def check_emergency_rules (message : String) : Option AIClassification :=
  let msg_lower := pyLower message
  (emergency_triggers.find? (fun p => pyContains msg_lower p.1)).map
    (fun p =>
      { intent := IntentType.emergency
        urgency := UrgencyLevel.critical
        department := some p.2
        needs_ambulance := true
        confidence := 1.0
        entities := some [("trigger", Json.str p.1)] })

/-- Embedding of `_fallback_classification` (`intent_classifier.py`): keyword
fallback used when the collaborator is unavailable or its reply is unusable. -/
def fallback_classification (message : String) : AIClassification :=
  let msg_lower := pyLower message
  if ["hello", "hi", "hey", "good morning", "good evening"].any
      (fun w => pyContains msg_lower w) then
    { intent := IntentType.greeting, confidence := 0.9 }
  else if ["bye", "goodbye", "thank", "thanks"].any
      (fun w => pyContains msg_lower w) then
    { intent := IntentType.farewell, confidence := 0.9 }
  else if ["appointment", "book", "schedule", "slot", "reschedule",
      "cancel appointment"].any (fun w => pyContains msg_lower w) then
    { intent := IntentType.appointment_request, confidence := 0.7 }
  else if ["doctor", "dr.", "specialist", "surgeon"].any
      (fun w => pyContains msg_lower w) then
    { intent := IntentType.doctor_info, confidence := 0.7 }
  else if ["insurance", "bill", "payment", "cost", "charge", "policy"].any
      (fun w => pyContains msg_lower w) then
    { intent := IntentType.insurance, confidence := 0.7 }
  else if ["complaint", "unhappy", "bad experience", "rude"].any
      (fun w => pyContains msg_lower w) then
    { intent := IntentType.complaint, confidence := 0.7 }
  else if ["pain", "fever", "headache", "cough", "vomit", "nausea", "dizzy",
      "symptom", "sick", "ill", "hurts"].any (fun w => pyContains msg_lower w) then
    { intent := IntentType.symptom_report
      urgency := UrgencyLevel.urgent
      confidence := 0.6 }
  else
    { intent := IntentType.general_query, confidence := 0.5 }

/-- Construction of an `AIClassification` from the decoded reply JSON
(`classify_intent`, lines 79-88): `.get` defaults for missing keys, enum
lookups that raise on unknown values, and pydantic field validation.  `none`
models any raised exception (caught by the surrounding `try`).  Lenient
pydantic coercions are modelled as exact-type checks; a validation failure of
any kind routes to the fallback exactly as an exception does. -/
def buildClassification (j : Json) : Option AIClassification :=
  match j with
  | Json.obj fields => do
    let intentVal := (Json.lookupField fields "intent").getD (Json.str "general_query")
    let intent ← match intentVal with
      | Json.str s => IntentType.ofString s
      | _ => none
    let urgencyVal := (Json.lookupField fields "urgency").getD (Json.str "non_urgent")
    let urgency ← match urgencyVal with
      | Json.str s => UrgencyLevel.ofString s
      | _ => none
    let department ← match Json.lookupField fields "department" with
      | none => some none
      | some Json.null => some none
      | some (Json.str s) => some (some s)
      | some _ => none
    let needs_ambulance ← match Json.lookupField fields "needs_ambulance" with
      | none => some false
      | some (Json.bool b) => some b
      | some _ => none
    let confidence ← match Json.lookupField fields "confidence" with
      | none => some (0.8 : ℚ)
      | some (Json.num q) => some q
      | some _ => none
    let entities ← match Json.lookupField fields "entities" with
      | none => some none
      | some Json.null => some none
      | some (Json.obj f) => some (some f)
      | some _ => none
    pure { intent := intent, urgency := urgency, department := department,
           needs_ambulance := needs_ambulance, confidence := confidence,
           entities := entities }
  | _ => none

/-- Outcome of the call to the text-generation collaborator, including the
parse of its reply text: the collaborator may raise (timeout or transport
error), return `None`, or return text whose `json.loads` outcome is carried
as an `Option Json` (`none` = unparsable text). -/
inductive ChatResult where
  | raisedErr
  | noResponse
  | reply (parsed : Option Json)

/-- Embedding of `classify_intent` (`intent_classifier.py`): deterministic
emergency rule first, then the collaborator path, with every failure of that
path routed to the keyword fallback. -/
def classify_intent (llm : ChatResult) (message : String) : AIClassification :=
  match check_emergency_rules message with
  | some c => c
  | none =>
    match llm with
    | ChatResult.raisedErr => fallback_classification message
    | ChatResult.noResponse => fallback_classification message
    | ChatResult.reply parsed =>
      match parsed with
      | none => fallback_classification message
      | some j =>
        match buildClassification j with
        | none => fallback_classification message
        | some c => c

/-- C1: for every input text that contains (case-insensitively) a phrase of
the fixed emergency trigger table, `classify_intent` returns the emergency
classification (intent=emergency, urgency=critical, needs_ambulance=true,
confidence=1.0, department = the trigger's mapped specialty), regardless of
the text-generation collaborator's behaviour. -/
theorem classify_intent_emergency_rule (msg : String)
    (h : ∃ p ∈ emergency_triggers, pyContains (pyLower msg) p.1 = true) :
    ∃ p ∈ emergency_triggers, pyContains (pyLower msg) p.1 = true ∧
      ∀ llm : ChatResult, classify_intent llm msg =
        { intent := IntentType.emergency
          urgency := UrgencyLevel.critical
          department := some p.2
          needs_ambulance := true
          confidence := 1.0
          entities := some [("trigger", Json.str p.1)] } := by
  have hsome : (emergency_triggers.find? (fun p => pyContains (pyLower msg) p.1)).isSome := by
    rw [List.find?_isSome]
    obtain ⟨p, hp, hc⟩ := h
    exact ⟨p, hp, hc⟩
  obtain ⟨p, hfind⟩ := Option.isSome_iff_exists.mp hsome
  have hprop := List.find?_some hfind
  refine ⟨p, List.mem_of_find?_eq_some hfind, hprop, ?_⟩
  intro llm
  simp only [classify_intent, check_emergency_rules, hfind, Option.map_some']

/-- Witness for C1 at the concrete message "Grandpa suddenly has Chest Pain". -/
theorem classify_intent_emergency_rule_witness :
    (∃ p ∈ emergency_triggers,
        pyContains (pyLower "Grandpa suddenly has Chest Pain") p.1 = true) ∧
      ∃ p ∈ emergency_triggers,
        pyContains (pyLower "Grandpa suddenly has Chest Pain") p.1 = true ∧
        ∀ llm : ChatResult, classify_intent llm "Grandpa suddenly has Chest Pain" =
          { intent := IntentType.emergency
            urgency := UrgencyLevel.critical
            department := some p.2
            needs_ambulance := true
            confidence := 1.0
            entities := some [("trigger", Json.str p.1)] } :=
  ⟨by decide, classify_intent_emergency_rule "Grandpa suddenly has Chest Pain" (by decide)⟩

/-! Triage engine (`app/triage/triage_engine.py`).  Severity weights are
exact multiples of 1/100 in the source, so they are embedded as natural
numbers in hundredths (1.0 ↦ 100). -/

/-- Symptom severity weight table `SYMPTOM_SEVERITY_MAP`
(`triage_engine.py`, lines 16-84), in source order, weights in hundredths. -/
def SYMPTOM_SEVERITY_MAP : List (String × ℕ) :=
  [("chest pain", 100), ("heart attack", 100), ("cardiac arrest", 100),
   ("not breathing", 100), ("stopped breathing", 100), ("choking", 95),
   ("severe bleeding", 95), ("unconscious", 100), ("seizure", 95),
   ("stroke", 100), ("anaphylaxis", 100), ("overdose", 95),
   ("poisoning", 95), ("severe burn", 90), ("gunshot", 100), ("stab", 100),
   ("difficulty breathing", 85), ("shortness of breath", 80),
   ("high fever", 70), ("severe headache", 70), ("blurred vision", 65),
   ("broken bone", 75), ("fracture", 75), ("deep cut", 70),
   ("persistent vomiting", 65), ("blood in stool", 70),
   ("blood in urine", 65), ("severe abdominal pain", 75),
   ("allergic reaction", 70), ("fainting", 65), ("dehydration", 60),
   ("dizziness", 55), ("chest tightness", 75), ("confusion", 70),
   ("numbness", 60), ("paralysis", 85),
   ("fever", 40), ("cough", 30), ("headache", 35), ("body pain", 35),
   ("sore throat", 30), ("ear pain", 35), ("back pain", 40),
   ("joint pain", 35), ("rash", 30), ("nausea", 35), ("vomiting", 45),
   ("diarrhea", 35), ("stomach pain", 40), ("toothache", 30),
   ("cold", 15), ("runny nose", 10), ("mild headache", 20),
   ("fatigue", 20), ("insomnia", 15), ("anxiety", 25), ("stress", 20),
   ("itching", 15), ("minor cut", 10), ("bruise", 10)]

/-- Keyword to department routing table `SYMPTOM_DEPARTMENT_MAP`
(`triage_engine.py`, lines 87-130), in source order. -/
def SYMPTOM_DEPARTMENT_MAP : List (String × String) :=
  [("chest pain", "Cardiology"), ("heart", "Cardiology"),
   ("cardiac", "Cardiology"), ("breathing", "Pulmonology"),
   ("cough", "Pulmonology"), ("asthma", "Pulmonology"),
   ("headache", "Neurology"), ("seizure", "Neurology"),
   ("stroke", "Neurology"), ("numbness", "Neurology"),
   ("confusion", "Neurology"), ("paralysis", "Neurology"),
   ("bone", "Orthopedics"), ("fracture", "Orthopedics"),
   ("joint", "Orthopedics"), ("back pain", "Orthopedics"),
   ("sprain", "Orthopedics"), ("child", "Pediatrics"),
   ("baby", "Pediatrics"), ("infant", "Pediatrics"),
   ("skin", "Dermatology"), ("rash", "Dermatology"),
   ("itching", "Dermatology"), ("acne", "Dermatology"),
   ("eye", "Ophthalmology"), ("vision", "Ophthalmology"),
   ("ear", "ENT"), ("nose", "ENT"), ("throat", "ENT"),
   ("sore throat", "ENT"), ("stomach", "Gastroenterology"),
   ("abdomen", "Gastroenterology"), ("digestive", "Gastroenterology"),
   ("anxiety", "Psychiatry"), ("depression", "Psychiatry"),
   ("mental", "Psychiatry"), ("suicidal", "Psychiatry"),
   ("pregnancy", "Gynecology"), ("menstrual", "Gynecology"),
   ("fever", "General Medicine"), ("cold", "General Medicine"),
   ("fatigue", "General Medicine")]

/-- Stable insertion of a (symptom, weight) pair into a list sorted by weight
descending, placing the new element before the first one of equal or smaller
weight.  Together with `sortDesc` this models Python's stable
`list.sort(key=lambda x: x[1], reverse=True)`. -/
def insertDesc (x : String × ℕ) : List (String × ℕ) → List (String × ℕ)
  | [] => [x]
  | y :: ys => if y.2 ≤ x.2 then x :: y :: ys else y :: insertDesc x ys

/-- Stable sort by weight descending (model of the Python `sort` call in
`_detect_symptoms`). -/
def sortDesc : List (String × ℕ) → List (String × ℕ)
  | [] => []
  | x :: xs => insertDesc x (sortDesc xs)

/-- Embedding of `TriageEngine._detect_symptoms`: collect the table entries
that are substrings of the (already lower-cased) text, highest weight
first. -/
def detect_symptoms (text : String) : List (String × ℕ) :=
  sortDesc (SYMPTOM_SEVERITY_MAP.filter (fun p => pyContains text p.1))

/-- Embedding of `TriageEngine._calculate_severity` on the sorted detected
list (weights in hundredths: 0.1 ↦ 10, 0.15 ↦ 15, 0.03 ↦ 3, 1.0 ↦ 100).  The
source also computes `secondary_avg = np.mean(...)`, a value it never uses;
that dead assignment is dropped here. -/
def calculate_severity (detected : List (String × ℕ)) : ℕ :=
  match detected with
  | [] => 10
  | d0 :: rest =>
    if 1 < (d0 :: rest).length then
      min 100 (d0.2 + min 15 ((d0 :: rest).length * 3))
    else d0.2

/-- Embedding of `TriageEngine._determine_department`: first table entry that
is a substring of the (already lower-cased) text, default General Medicine. -/
def determine_department (text : String) : String :=
  match SYMPTOM_DEPARTMENT_MAP.find? (fun p => pyContains text p.1) with
  | some p => p.2
  | none => "General Medicine"

/-- Embedding of `TriageEngine._get_first_aid`: condition-specific tip lists
keyed by exact detected symptom names, with call-emergency guidance prepended
for CRITICAL severity and a generic fallback set. -/
def get_first_aid (symptoms : List (String × ℕ)) (severity : String) : List String :=
  let symptom_names := symptoms.map (fun s => s.1)
  let hasAny := fun (l : List String) => l.any (fun s => symptom_names.contains s)
  let tips :=
    (if severity = "CRITICAL" then
      ["🚨 Call emergency services (108) IMMEDIATELY",
       "Do NOT move the patient unless in immediate danger",
       "Monitor consciousness and breathing"]
     else []) ++
    (if hasAny ["chest pain", "heart attack", "cardiac arrest"] then
      ["💊 If patient has prescribed nitroglycerin, help them take it",
       "Have the patient sit upright and stay calm",
       "Loosen any tight clothing",
       "If patient becomes unresponsive, begin CPR"]
     else []) ++
    (if hasAny ["not breathing", "stopped breathing", "choking"] then
      ["Check airway for obstructions",
       "If choking: perform Heimlich maneuver (abdominal thrusts)",
       "If not breathing: begin rescue breathing / CPR",
       "Tilt head back, lift chin to open airway"]
     else []) ++
    (if hasAny ["severe bleeding", "deep cut"] then
      ["Apply direct pressure with clean cloth",
       "Elevate the wound above heart level if possible",
       "Do NOT remove embedded objects",
       "Apply tourniquet only as last resort for life-threatening limb bleeding"]
     else []) ++
    (if hasAny ["seizure"] then
      ["Clear area around patient of hard objects",
       "Do NOT restrain or put anything in their mouth",
       "Turn patient on their side after seizure stops",
       "Time the seizure — call 108 if it lasts over 5 minutes"]
     else []) ++
    (if hasAny ["severe burn"] then
      ["Cool the burn under cool running water for 10+ minutes",
       "Do NOT apply ice, butter, or ointments",
       "Cover with clean, non-stick dressing",
       "Remove jewelry near the burn before swelling starts"]
     else []) ++
    (if hasAny ["fracture", "broken bone"] then
      ["Immobilize the injured area — do not try to realign",
       "Apply ice wrapped in cloth to reduce swelling",
       "Splint the area if trained to do so"]
     else []) ++
    (if hasAny ["high fever", "fever"] then
      ["Stay hydrated with plenty of fluids",
       "Rest in a cool, comfortable environment",
       "Use a damp cloth on forehead for comfort"]
     else []) ++
    (if hasAny ["allergic reaction", "anaphylaxis"] then
      ["Use EpiPen if available and trained to do so",
       "Help patient sit upright for easier breathing",
       "Remove known allergen if identifiable"]
     else [])
  if tips = [] then
    ["Rest and stay hydrated",
     "Monitor symptoms and note any changes",
     "Seek medical attention if symptoms worsen"]
  else tips

/-- Embedding of `TriageEngine._generate_notes`. -/
def generate_notes (symptoms : List (String × ℕ)) (severity department : String) : String :=
  if symptoms = [] then
    "No specific symptoms detected. Recommended: " ++ department ++ " consultation."
  else
    "Triage Assessment: " ++ severity ++ " | Symptoms: " ++
      String.intercalate ", " (symptoms.map (fun s => s.1)) ++
      " | Recommended Dept: " ++ department ++
      " | Symptom count: " ++ toString symptoms.length

/-- Triage output dataclass `TriageResult` (`triage_engine.py`), with the
severity score in hundredths. -/
structure TriageResult where
  severity_score : ℕ
  severity_level : String
  recommended_department : String
  detected_symptoms : List String
  needs_immediate_attention : Bool
  needs_ambulance : Bool
  triage_notes : String
  first_aid_tips : List String

/-- Embedding of `TriageEngine.assess`.  Thresholds 0.8, 0.5 and 0.9 of the
source appear as 80, 50 and 90 in hundredths; `round(severity_score, 3)` is
the identity on integer multiples of 1/100 and is therefore dropped. -/
def assess (message : String) : TriageResult :=
  let msg_lower := pyLower message
  let detected := detect_symptoms msg_lower
  let severity_score := calculate_severity detected
  let department := determine_department msg_lower
  let severity_level :=
    if 80 ≤ severity_score then "CRITICAL"
    else if 50 ≤ severity_score then "URGENT"
    else "NON_URGENT"
  let needs_immediate := decide (80 ≤ severity_score)
  let needs_amb := decide (90 ≤ severity_score)
  let first_aid := get_first_aid detected severity_level
  let notes := generate_notes detected severity_level department
  { severity_score := severity_score
    severity_level := severity_level
    recommended_department := department
    detected_symptoms := detected.map (fun s => s.1)
    needs_immediate_attention := needs_immediate
    needs_ambulance := needs_amb
    triage_notes := notes
    first_aid_tips := first_aid }

/-- Largest weight occurring in a detected-symptom list. -/
def maxWeight (l : List (String × ℕ)) : ℕ :=
  l.foldr (fun p m => max p.2 m) 0

lemma mem_insertDesc {a x : String × ℕ} {l : List (String × ℕ)} :
    a ∈ insertDesc x l ↔ a = x ∨ a ∈ l := by
  induction l with
  | nil => simp [insertDesc]
  | cons y ys ih =>
    by_cases h : y.2 ≤ x.2
    · simp [insertDesc, h]
    · simp [insertDesc, h, ih]
      tauto

lemma mem_sortDesc {a : String × ℕ} {l : List (String × ℕ)} :
    a ∈ sortDesc l ↔ a ∈ l := by
  induction l with
  | nil => simp [sortDesc]
  | cons x xs ih => simp [sortDesc, mem_insertDesc, ih]

lemma length_insertDesc (x : String × ℕ) (l : List (String × ℕ)) :
    (insertDesc x l).length = l.length + 1 := by
  induction l with
  | nil => simp [insertDesc]
  | cons y ys ih =>
    by_cases h : y.2 ≤ x.2
    · simp [insertDesc, h]
    · simp [insertDesc, h, ih]

lemma length_sortDesc (l : List (String × ℕ)) :
    (sortDesc l).length = l.length := by
  induction l with
  | nil => rfl
  | cons x xs ih => simp [sortDesc, length_insertDesc, ih]

lemma sortDesc_eq_nil {l : List (String × ℕ)} (h : sortDesc l = []) : l = [] := by
  have := length_sortDesc l
  rw [h] at this
  exact List.length_eq_zero.mp this.symm

/-- Head of the descending sort is a member of maximal weight. -/
lemma sortDesc_head_max :
    ∀ (l : List (String × ℕ)) (x : String × ℕ) (t : List (String × ℕ)),
      sortDesc l = x :: t → x ∈ l ∧ ∀ a ∈ l, a.2 ≤ x.2 := by
  intro l
  induction l with
  | nil => intro x t h; simp [sortDesc] at h
  | cons b bs ih =>
    intro x t h
    rw [sortDesc] at h
    cases hs : sortDesc bs with
    | nil =>
      have hbs : bs = [] := sortDesc_eq_nil hs
      rw [hs] at h
      simp [insertDesc] at h
      subst hbs
      simp [h.1]
    | cons y yt =>
      obtain ⟨hymem, hybound⟩ := ih y yt hs
      rw [hs] at h
      by_cases hle : y.2 ≤ b.2
      · rw [insertDesc, if_pos hle] at h
        obtain ⟨hxb, -⟩ := List.cons.inj h
        subst hxb
        refine ⟨List.mem_cons_self _ _, ?_⟩
        intro a ha
        rcases List.mem_cons.mp ha with rfl | ha
        · exact le_refl _
        · exact le_trans (hybound a ha) hle
      · rw [insertDesc, if_neg hle] at h
        obtain ⟨hxy, -⟩ := List.cons.inj h
        subst hxy
        refine ⟨List.mem_cons_of_mem _ hymem, ?_⟩
        intro a ha
        rcases List.mem_cons.mp ha with rfl | ha
        · exact le_of_lt (Nat.lt_of_not_le hle)
        · exact hybound a ha

lemma le_maxWeight {a : String × ℕ} {l : List (String × ℕ)} (h : a ∈ l) :
    a.2 ≤ maxWeight l := by
  induction l with
  | nil => cases h
  | cons x xs ih =>
    rcases List.mem_cons.mp h with rfl | h
    · exact Nat.le_max_left _ _
    · exact le_trans (ih h) (Nat.le_max_right _ _)

lemma maxWeight_le {l : List (String × ℕ)} {n : ℕ}
    (h : ∀ a ∈ l, a.2 ≤ n) : maxWeight l ≤ n := by
  induction l with
  | nil => exact Nat.zero_le n
  | cons x xs ih =>
    exact Nat.max_le.mpr ⟨h x (List.mem_cons_self _ _),
      ih (fun a ha => h a (List.mem_cons_of_mem _ ha))⟩

lemma symptom_weights_le_100 : ∀ p ∈ SYMPTOM_SEVERITY_MAP, p.2 ≤ 100 := by decide

/-- Weight of every detected symptom is at most 100 (table bound through the
filter and the sort). -/
lemma detected_weight_le_100 {t : String} {a : String × ℕ}
    (h : a ∈ detect_symptoms t) : a.2 ≤ 100 := by
  have hmem : a ∈ SYMPTOM_SEVERITY_MAP.filter (fun p => pyContains t p.1) :=
    mem_sortDesc.mp h
  exact symptom_weights_le_100 a (List.mem_of_mem_filter hmem)

lemma assess_severity_score (msg : String) :
    (assess msg).severity_score = calculate_severity (detect_symptoms (pyLower msg)) := rfl

lemma assess_severity_level (msg : String) :
    (assess msg).severity_level =
      (if 80 ≤ (assess msg).severity_score then "CRITICAL"
       else if 50 ≤ (assess msg).severity_score then "URGENT"
       else "NON_URGENT") := rfl

lemma assess_needs_immediate (msg : String) :
    (assess msg).needs_immediate_attention =
      decide (80 ≤ (assess msg).severity_score) := rfl

lemma assess_needs_ambulance (msg : String) :
    (assess msg).needs_ambulance = decide (90 ≤ (assess msg).severity_score) := rfl

lemma calculate_severity_le_100 (msg : String) :
    calculate_severity (detect_symptoms (pyLower msg)) ≤ 100 := by
  cases hd : detect_symptoms (pyLower msg) with
  | nil => simp [calculate_severity]
  | cons d0 rest =>
    have hd0 : d0 ∈ detect_symptoms (pyLower msg) := by
      rw [hd]; exact List.mem_cons_self _ _
    have hb : d0.2 ≤ 100 := detected_weight_le_100 hd0
    rw [calculate_severity]
    split
    · exact Nat.min_le_left _ _
    · exact hb

/-- C3: the triage severity score is within [0,1] (≤ 100 in hundredths, the
lower bound 0 being inherent), the severity level matches the documented
thresholds exactly (score ≥ 0.8 ↦ CRITICAL including the boundary,
0.5 ≤ score < 0.8 ↦ URGENT including the boundary, otherwise NON_URGENT), and
needs_immediate_attention / needs_ambulance are computed from the numeric
score with their own thresholds 0.8 and 0.9. -/
theorem assess_score_level_thresholds (msg : String) :
    (assess msg).severity_score ≤ 100 ∧
    ((assess msg).severity_level = "CRITICAL" ↔ 80 ≤ (assess msg).severity_score) ∧
    ((assess msg).severity_level = "URGENT" ↔
      50 ≤ (assess msg).severity_score ∧ (assess msg).severity_score < 80) ∧
    ((assess msg).severity_level = "NON_URGENT" ↔ (assess msg).severity_score < 50) ∧
    ((assess msg).needs_immediate_attention = true ↔ 80 ≤ (assess msg).severity_score) ∧
    ((assess msg).needs_ambulance = true ↔ 90 ≤ (assess msg).severity_score) := by
  refine ⟨calculate_severity_le_100 msg, ?_, ?_, ?_, ?_, ?_⟩
  · rw [assess_severity_level]
    split_ifs with h8 h5 <;> simp_all
  · rw [assess_severity_level]
    split_ifs with h8 h5 <;> simp_all
  · rw [assess_severity_level]
    split_ifs with h8 h5 <;> simp_all
    omega
  · rw [assess_needs_immediate]
    simp
  · rw [assess_needs_ambulance]
    simp

/-- C4: the severity score is 0.1 (10 in hundredths) when no table entry is a
case-insensitive substring of the text; otherwise it is the maximum weight
among the matched symptoms plus, when more than one symptom matched, a
compounding bonus of min(0.15, 0.03 × matchCount), capped at 1.0. -/
theorem calculate_severity_formula (msg : String) :
    (assess msg).severity_score =
      (if SYMPTOM_SEVERITY_MAP.filter (fun p => pyContains (pyLower msg) p.1) = [] then 10
       else
        min 100
          (maxWeight (SYMPTOM_SEVERITY_MAP.filter (fun p => pyContains (pyLower msg) p.1)) +
            (if 1 < (SYMPTOM_SEVERITY_MAP.filter (fun p => pyContains (pyLower msg) p.1)).length
             then min 15 ((SYMPTOM_SEVERITY_MAP.filter (fun p => pyContains (pyLower msg) p.1)).length * 3)
             else 0))) := by
  rw [assess_severity_score]
  set matched := SYMPTOM_SEVERITY_MAP.filter (fun p => pyContains (pyLower msg) p.1) with hm
  have hds : detect_symptoms (pyLower msg) = sortDesc matched := rfl
  cases hd : detect_symptoms (pyLower msg) with
  | nil =>
    have h0 : matched = [] := sortDesc_eq_nil (hds ▸ hd)
    rw [if_pos h0]
    rfl
  | cons d0 rest =>
    obtain ⟨hmem, hbound⟩ := sortDesc_head_max matched d0 rest (hds ▸ hd)
    have hmax : d0.2 = maxWeight matched :=
      Nat.le_antisymm (le_maxWeight hmem) (maxWeight_le hbound)
    have hne : matched ≠ [] := by
      intro h0
      rw [h0] at hmem
      cases hmem
    have hlen : (d0 :: rest).length = matched.length := by
      rw [← hd, hds, length_sortDesc]
    rw [calculate_severity, if_neg hne, hlen, hmax]
    by_cases h1 : 1 < matched.length
    · rw [if_pos h1, if_pos h1]
    · rw [if_neg h1, if_neg h1, Nat.add_zero]
      have hb : maxWeight matched ≤ 100 := by
        rw [← hmax]
        exact detected_weight_le_100 (by rw [hd]; exact List.mem_cons_self _ _)
      omega

/-! Slot lock (`app/api/appointments.py`, lines 22-48).  The module dict
`_slot_locks : dict[str, datetime]` is modelled as a function from keys to
optional expiry times; `datetime.utcnow()` is passed in as a natural-number
`now` parameter (seconds), and the slot's datetime argument appears as its
ISO string, since the code only uses it through `dt.isoformat()`. -/

/-- State of the `_slot_locks` dict: key → lock expiry. -/
def LockState : Type := String → Option ℕ

/-- Reservation window `LOCK_DURATION_SECONDS` (120 = 2 minutes). -/
def LOCK_DURATION_SECONDS : ℕ := 120

/-- Embedding of `_get_lock_key`. -/
def get_lock_key (doctor_id dt : String) : String :=
  doctor_id ++ ":" ++ dt

/-- Embedding of `_acquire_lock`: purge the key if its stored expiry has
elapsed, fail if an entry remains, otherwise insert `now + 120`. -/
def acquire_lock (doctor_id dt : String) (now : ℕ) (σ : LockState) :
    Bool × LockState :=
  let key := get_lock_key doctor_id dt
  let σ1 : LockState :=
    match σ key with
    | some expiry =>
      if expiry < now then (fun k => if k = key then none else σ k) else σ
    | none => σ
  match σ1 key with
  | some _ => (false, σ1)
  | none => (true, fun k => if k = key then some (now + LOCK_DURATION_SECONDS) else σ1 k)

/-- Embedding of `_release_lock`: unconditionally drop the key. -/
def release_lock (doctor_id dt : String) (σ : LockState) : LockState :=
  let key := get_lock_key doctor_id dt
  fun k => if k = key then none else σ k

/-- Timed operation on the lock table. -/
inductive LockOp where
  | acquireOp (doctor_id dt : String) (now : ℕ)
  | releaseOp (doctor_id dt : String)

/-- State transition of one lock-table operation (result of an acquire is
discarded; only its state effect matters for traces). -/
def applyOp (σ : LockState) : LockOp → LockState
  | LockOp.acquireOp d t now => (acquire_lock d t now σ).2
  | LockOp.releaseOp d t => release_lock d t σ

/-- State after a sequence of lock-table operations. -/
def applyOps (σ : LockState) (ops : List LockOp) : LockState :=
  ops.foldl applyOp σ

/-- Test that an operation neither releases the protected key nor acquires it
after the deadline: such operations make up the interval between a successful
acquire and its matching release or expiry. -/
def opWithin (key : String) (deadline : ℕ) : LockOp → Bool
  | LockOp.acquireOp d t now =>
    decide (get_lock_key d t ≠ key) || decide (now ≤ deadline)
  | LockOp.releaseOp d t => decide (get_lock_key d t ≠ key)

lemma acquire_lock_live_fails (doctor_id dt : String) (now : ℕ) (σ : LockState)
    (e : ℕ) (h : σ (get_lock_key doctor_id dt) = some e) (hle : now ≤ e) :
    (acquire_lock doctor_id dt now σ).1 = false := by
  unfold acquire_lock
  simp [h, Nat.not_lt.mpr hle]

lemma acquire_lock_frame (doctor_id dt : String) (now : ℕ) (σ : LockState)
    (k : String) (hk : k ≠ get_lock_key doctor_id dt) :
    (acquire_lock doctor_id dt now σ).2 k = σ k := by
  unfold acquire_lock
  cases hσ : σ (get_lock_key doctor_id dt) with
  | none =>
    simp only [hσ]
    cases h1 : σ (get_lock_key doctor_id dt) <;> simp [hσ, hk]
  | some e =>
    by_cases he : e < now <;> simp [hσ, he, hk]

lemma acquire_lock_true_sets (doctor_id dt : String) (now : ℕ) (σ : LockState)
    (h : (acquire_lock doctor_id dt now σ).1 = true) :
    (acquire_lock doctor_id dt now σ).2 (get_lock_key doctor_id dt) =
      some (now + LOCK_DURATION_SECONDS) := by
  unfold acquire_lock at h ⊢
  cases hσ : σ (get_lock_key doctor_id dt) with
  | none => simp [hσ]
  | some e =>
    by_cases he : e < now
    · simp [hσ, he]
    · simp [hσ, he] at h

/-- C10 (also the key step of C2): a failed acquire leaves the lock table
exactly as it was — the purge branch cannot have fired, since a purged or
absent key leads to a successful insert. -/
theorem acquire_lock_false_frame (doctor_id dt : String) (now : ℕ) (σ : LockState)
    (h : (acquire_lock doctor_id dt now σ).1 = false) :
    (acquire_lock doctor_id dt now σ).2 = σ := by
  unfold acquire_lock at h ⊢
  cases hσ : σ (get_lock_key doctor_id dt) with
  | none => simp [hσ] at h
  | some e =>
    by_cases he : e < now
    · simp [hσ, he] at h
    · simp [hσ, he]

/-- Witness for C10: an acquire that fails on a live lock changes nothing. -/
theorem acquire_lock_false_frame_witness :
    ((acquire_lock "doc7" "2026-03-01T09:00:00" 1000
        (fun k => if k = "doc7:2026-03-01T09:00:00" then some 1050 else none)).1 = false) ∧
    (acquire_lock "doc7" "2026-03-01T09:00:00" 1000
        (fun k => if k = "doc7:2026-03-01T09:00:00" then some 1050 else none)).2 =
      (fun k => if k = "doc7:2026-03-01T09:00:00" then some 1050 else none) :=
  ⟨by decide, acquire_lock_false_frame "doc7" "2026-03-01T09:00:00" 1000
      (fun k => if k = "doc7:2026-03-01T09:00:00" then some 1050 else none) (by decide)⟩

/-- C9: an acquire on a key whose stored expiry has elapsed succeeds without
any release, and installs a fresh entry with expiry `now + 120`, every other
key untouched. -/
theorem acquire_lock_expired_succeeds (doctor_id dt : String) (now e : ℕ)
    (σ : LockState) (hstale : σ (get_lock_key doctor_id dt) = some e)
    (helapsed : e < now) :
    (acquire_lock doctor_id dt now σ).1 = true ∧
    (acquire_lock doctor_id dt now σ).2 (get_lock_key doctor_id dt) =
      some (now + LOCK_DURATION_SECONDS) ∧
    ∀ k, k ≠ get_lock_key doctor_id dt →
      (acquire_lock doctor_id dt now σ).2 k = σ k := by
  refine ⟨?_, ?_, fun k hk => acquire_lock_frame doctor_id dt now σ k hk⟩
  · unfold acquire_lock
    simp [hstale, helapsed]
  · unfold acquire_lock
    simp [hstale, helapsed]

/-- Witness for C9: a lock that expired at time 900 is re-acquired at 1000. -/
theorem acquire_lock_expired_succeeds_witness :
    ((fun k => if k = "doc7:2026-03-01T09:00:00" then some 900 else none) :
        LockState) "doc7:2026-03-01T09:00:00" = some 900 ∧ (900 : ℕ) < 1000 ∧
    ((acquire_lock "doc7" "2026-03-01T09:00:00" 1000
        (fun k => if k = "doc7:2026-03-01T09:00:00" then some 900 else none)).1 = true ∧
     (acquire_lock "doc7" "2026-03-01T09:00:00" 1000
        (fun k => if k = "doc7:2026-03-01T09:00:00" then some 900 else none)).2
          "doc7:2026-03-01T09:00:00" = some (1000 + LOCK_DURATION_SECONDS) ∧
     ∀ k, k ≠ "doc7:2026-03-01T09:00:00" →
       (acquire_lock "doc7" "2026-03-01T09:00:00" 1000
          (fun k => if k = "doc7:2026-03-01T09:00:00" then some 900 else none)).2 k =
         (fun k => if k = "doc7:2026-03-01T09:00:00" then some 900 else none : LockState) k) :=
  ⟨by decide, by decide,
    acquire_lock_expired_succeeds "doc7" "2026-03-01T09:00:00" 1000 900
      (fun k => if k = "doc7:2026-03-01T09:00:00" then some 900 else none)
      (by decide) (by decide)⟩

/-- C2: after a successful acquire of a key at time `now0`, and any sequence
of operations that never releases that key and whose same-key acquires happen
at or before the expiry `now0 + 120`, a further acquire of the key at any
time `t1 ≤ now0 + 120` fails — at most one live lock per key at any instant. -/
theorem lock_mutual_exclusion (doctor_id dt : String) (now0 : ℕ) (σ : LockState)
    (hacq : (acquire_lock doctor_id dt now0 σ).1 = true)
    (ops : List LockOp)
    (hops : ∀ op ∈ ops,
      opWithin (get_lock_key doctor_id dt) (now0 + LOCK_DURATION_SECONDS) op = true)
    (t1 : ℕ) (ht1 : t1 ≤ now0 + LOCK_DURATION_SECONDS) :
    (acquire_lock doctor_id dt t1
        (applyOps (acquire_lock doctor_id dt now0 σ).2 ops)).1 = false := by
  set key := get_lock_key doctor_id dt with hkey
  have hinv : ∀ (ops' : List LockOp) (σ' : LockState),
      (∀ op ∈ ops', opWithin key (now0 + LOCK_DURATION_SECONDS) op = true) →
      σ' key = some (now0 + LOCK_DURATION_SECONDS) →
      applyOps σ' ops' key = some (now0 + LOCK_DURATION_SECONDS) := by
    intro ops'
    induction ops' with
    | nil => intro σ' _ h; exact h
    | cons op rest ih =>
      intro σ' hall h
      have hop := hall op (List.mem_cons_self _ _)
      have hrest := fun o ho => hall o (List.mem_cons_of_mem _ ho)
      have hstep : applyOp σ' op key = some (now0 + LOCK_DURATION_SECONDS) := by
        cases op with
        | acquireOp d' t' n' =>
          rcases Bool.or_eq_true_iff.mp hop with hne | hle
          · have hne' : key ≠ get_lock_key d' t' :=
              fun he => (of_decide_eq_true hne) he.symm
            rw [applyOp, acquire_lock_frame d' t' n' σ' key hne']
            exact h
          · by_cases hsame : get_lock_key d' t' = key
            · have hfail : (acquire_lock d' t' n' σ').1 = false :=
                acquire_lock_live_fails d' t' n' σ' (now0 + LOCK_DURATION_SECONDS)
                  (by rw [hsame]; exact h) (of_decide_eq_true hle)
              rw [applyOp, acquire_lock_false_frame d' t' n' σ' hfail]
              exact h
            · rw [applyOp, acquire_lock_frame d' t' n' σ' key
                (fun he => hsame he.symm)]
              exact h
        | releaseOp d' t' =>
          have hne' : key ≠ get_lock_key d' t' :=
            fun he => (of_decide_eq_true hop) he.symm
          rw [applyOp, release_lock]
          simp only [if_neg hne']
          exact h
      have : applyOps σ' (op :: rest) = applyOps (applyOp σ' op) rest := rfl
      rw [this]
      exact ih (applyOp σ' op) hrest hstep
  have hkeyset := acquire_lock_true_sets doctor_id dt now0 σ hacq
  have hfinal :
      applyOps (acquire_lock doctor_id dt now0 σ).2 ops key =
        some (now0 + LOCK_DURATION_SECONDS) :=
    hinv ops _ hops hkeyset
  exact acquire_lock_live_fails doctor_id dt t1
    (applyOps (acquire_lock doctor_id dt now0 σ).2 ops)
    (now0 + LOCK_DURATION_SECONDS) (hkey ▸ hfinal) ht1

/-- Witness for C2 on a concrete trace: doc7's 09:00 slot is locked at time
1000; an unrelated acquire, an unrelated release and a failing same-key
acquire happen; a same-key acquire at time 1100 (before expiry 1120) fails. -/
theorem lock_mutual_exclusion_witness :
    ((acquire_lock "doc7" "2026-03-01T09:00:00" 1000 (fun _ => none)).1 = true) ∧
    (∀ op ∈ [LockOp.acquireOp "doc7" "2026-03-01T10:00:00" 1010,
             LockOp.releaseOp "doc8" "2026-03-01T09:00:00",
             LockOp.acquireOp "doc7" "2026-03-01T09:00:00" 1050],
        opWithin (get_lock_key "doc7" "2026-03-01T09:00:00")
          (1000 + LOCK_DURATION_SECONDS) op = true) ∧
    (1100 : ℕ) ≤ 1000 + LOCK_DURATION_SECONDS ∧
    (acquire_lock "doc7" "2026-03-01T09:00:00" 1100
        (applyOps (acquire_lock "doc7" "2026-03-01T09:00:00" 1000 (fun _ => none)).2
          [LockOp.acquireOp "doc7" "2026-03-01T10:00:00" 1010,
           LockOp.releaseOp "doc8" "2026-03-01T09:00:00",
           LockOp.acquireOp "doc7" "2026-03-01T09:00:00" 1050])).1 = false :=
  ⟨by decide, by decide, by decide,
    lock_mutual_exclusion "doc7" "2026-03-01T09:00:00" 1000 (fun _ => none)
      (by decide)
      [LockOp.acquireOp "doc7" "2026-03-01T10:00:00" 1010,
       LockOp.releaseOp "doc8" "2026-03-01T09:00:00",
       LockOp.acquireOp "doc7" "2026-03-01T09:00:00" 1050]
      (by decide) 1100 (by decide)⟩

/-! Resolution of the classifier failure-handling and invariant claims
(C5, C6). -/

lemma check_emergency_rules_critical {msg : String} {c : AIClassification}
    (h : check_emergency_rules msg = some c) :
    c.intent = IntentType.emergency ∧ c.urgency = UrgencyLevel.critical := by
  unfold check_emergency_rules at h
  cases hf : (emergency_triggers.find? (fun p => pyContains (pyLower msg) p.1)) with
  | none => simp [hf] at h
  | some p =>
    simp [hf] at h
    rw [← h]
    exact ⟨rfl, rfl⟩

lemma fallback_not_emergency (msg : String) :
    (fallback_classification msg).intent ≠ IntentType.emergency := by
  simp only [fallback_classification]
  split_ifs <;> simp

/-- Counterexample to C5 as stated: a collaborator reply that parses as a
JSON object with every key missing does NOT fall through to the keyword
fallback — the code fills the missing keys with defaults instead. -/
theorem classify_missing_keys_not_fallback :
    classify_intent (ChatResult.reply (some (Json.obj []))) "hello" ≠
      fallback_classification "hello" := by
  intro h
  have h' := congrArg AIClassification.intent h
  revert h'
  decide

/-- C5 (amended): when no emergency trigger matches, every collaborator
failure — raised error or timeout, absent response, unparsable reply text,
or reply JSON whose field values fail validation — falls through to the
keyword fallback (itself a total function); a reply that parses as an object
with missing keys instead yields the defaulted classification
(general_query / non_urgent / confidence 0.8). -/
theorem classify_intent_failure_fallback (msg : String) (j : Json)
    (hnotrig : check_emergency_rules msg = none)
    (hbuild : buildClassification j = none) :
    classify_intent ChatResult.raisedErr msg = fallback_classification msg ∧
    classify_intent ChatResult.noResponse msg = fallback_classification msg ∧
    classify_intent (ChatResult.reply none) msg = fallback_classification msg ∧
    classify_intent (ChatResult.reply (some j)) msg = fallback_classification msg ∧
    classify_intent (ChatResult.reply (some (Json.obj []))) msg =
      { intent := IntentType.general_query
        urgency := UrgencyLevel.non_urgent
        department := none
        needs_ambulance := false
        confidence := 0.8
        entities := none } := by
  refine ⟨?_, ?_, ?_, ?_, ?_⟩
  · simp [classify_intent, hnotrig]
  · simp [classify_intent, hnotrig]
  · simp [classify_intent, hnotrig]
  · simp [classify_intent, hnotrig, hbuild]
  · simp only [classify_intent, hnotrig]
    rfl

/-- Witness for the amended C5 at a message with no trigger and a reply that
parses as a JSON array (whose `.get` access raises). -/
theorem classify_intent_failure_fallback_witness :
    check_emergency_rules "can I book a visit" = none ∧
    buildClassification (Json.arr []) = none ∧
    (classify_intent ChatResult.raisedErr "can I book a visit" =
        fallback_classification "can I book a visit" ∧
     classify_intent ChatResult.noResponse "can I book a visit" =
        fallback_classification "can I book a visit" ∧
     classify_intent (ChatResult.reply none) "can I book a visit" =
        fallback_classification "can I book a visit" ∧
     classify_intent (ChatResult.reply (some (Json.arr []))) "can I book a visit" =
        fallback_classification "can I book a visit" ∧
     classify_intent (ChatResult.reply (some (Json.obj []))) "can I book a visit" =
        { intent := IntentType.general_query
          urgency := UrgencyLevel.non_urgent
          department := none
          needs_ambulance := false
          confidence := 0.8
          entities := none }) :=
  ⟨rfl, rfl, classify_intent_failure_fallback "can I book a visit" (Json.arr []) rfl rfl⟩

/-- Counterexample to C6 as stated: the external-model path performs no
cross-field validation, so a reply claiming intent "emergency" with urgency
"urgent" is accepted as-is, violating the invariant. -/
theorem classify_intent_emergency_not_critical :
    (classify_intent
        (ChatResult.reply (some (Json.obj
          [("intent", Json.str "emergency"), ("urgency", Json.str "urgent")])))
        "hello").intent = IntentType.emergency ∧
    (classify_intent
        (ChatResult.reply (some (Json.obj
          [("intent", Json.str "emergency"), ("urgency", Json.str "urgent")])))
        "hello").urgency ≠ UrgencyLevel.critical := by
  constructor <;> decide

/-- C6 (amended): the emergency-rule path and the keyword fallback always
satisfy intent = emergency ⇒ urgency = critical; the external-model path
preserves the invariant only when the collaborator's successfully validated
reply itself satisfies it, which is therefore taken as a hypothesis. -/
theorem classify_intent_emergency_critical (msg : String) (llm : ChatResult)
    (hllm : ∀ j c, llm = ChatResult.reply (some j) → buildClassification j = some c →
      c.intent = IntentType.emergency → c.urgency = UrgencyLevel.critical) :
    (classify_intent llm msg).intent = IntentType.emergency →
    (classify_intent llm msg).urgency = UrgencyLevel.critical := by
  unfold classify_intent
  cases hr : check_emergency_rules msg with
  | some c =>
    intro _
    exact (check_emergency_rules_critical hr).2
  | none =>
    cases llm with
    | raisedErr => exact fun hint => absurd hint (fallback_not_emergency msg)
    | noResponse => exact fun hint => absurd hint (fallback_not_emergency msg)
    | reply parsed =>
      cases parsed with
      | none => exact fun hint => absurd hint (fallback_not_emergency msg)
      | some j =>
        show (match buildClassification j with
              | none => fallback_classification msg
              | some c => c).intent = IntentType.emergency →
            (match buildClassification j with
              | none => fallback_classification msg
              | some c => c).urgency = UrgencyLevel.critical
        cases hb : buildClassification j with
        | none => exact fun hint => absurd hint (fallback_not_emergency msg)
        | some c => exact fun hint => hllm j c rfl hb hint

/-- Witness for the amended C6: with a failed collaborator the hypothesis is
vacuous, and the rule-based emergency classification is critical. -/
theorem classify_intent_emergency_critical_witness :
    (∀ j c, ChatResult.raisedErr = ChatResult.reply (some j) →
        buildClassification j = some c →
        c.intent = IntentType.emergency → c.urgency = UrgencyLevel.critical) ∧
    ((classify_intent ChatResult.raisedErr "she has severe bleeding").intent =
        IntentType.emergency →
      (classify_intent ChatResult.raisedErr "she has severe bleeding").urgency =
        UrgencyLevel.critical) :=
  ⟨(fun _ _ h => nomatch h),
   (classify_intent_emergency_critical "she has severe bleeding" ChatResult.raisedErr
     (fun _ _ h => nomatch h))⟩

/-! Emergency orchestrator (`app/triage/emergency_orchestrator.py`).  The
case-storage collaborator (`db.emergencycase.create`) is modelled as a
function from the created record's fields to an optional case id, `none`
standing for a raised storage error (caught by the method's `try`).  The
audit log and logger calls have no effect on the returned value and are
omitted; `datetime.utcnow().isoformat()` in the escalation text is passed in
as a `nowIso` string parameter. -/

/-- Fields of `ConversationContext` (`conversation_manager.py`) read by the
orchestrator; the message history and timestamps are not consulted by it. -/
structure ConversationContext where
  session_id : String
  patient_name : Option String := none
  patient_phone : Option String := none
  patient_id : Option String := none

/-- Field bundle passed to `db.emergencycase.create` in
`_create_emergency_case`. -/
structure EmergencyCaseData where
  patientId : Option String
  severity : String
  symptoms : String
  contactNumber : String
  notes : String

/-- Case-storage collaborator: `some id` on success, `none` when the create
call raises. -/
def CaseStorage : Type := EmergencyCaseData → Option String

/-- Output dataclass `EmergencyAction` (`emergency_orchestrator.py`). -/
structure EmergencyAction where
  is_emergency : Bool
  triage : TriageResult
  dispatch_ambulance : Bool
  alert_staff : Bool
  escalation_message : String
  patient_guidance : String
  emergency_case_id : Option String := none

/-- Severity map of `_create_emergency_case` with its `.get(level, "URGENT")`
default. -/
def severity_map_get (level : String) : String :=
  match ([("CRITICAL", "CRITICAL"), ("URGENT", "URGENT"),
          ("NON_URGENT", "NON_URGENT")].find? (fun p => p.1 == level)) with
  | some p => p.2
  | none => "URGENT"

/-- Python truthiness defaulting `value or fallback` for optional strings. -/
def orDefault (v : Option String) (fallback : String) : String :=
  match v with
  | some s => if s = "" then fallback else s
  | none => fallback

/-- Embedding of `EmergencyOrchestrator._create_emergency_case`: build the
record and hand it to the storage collaborator; a storage failure is caught
and yields `none` (case id absent). -/
def create_emergency_case (storage : CaseStorage) (triage : TriageResult)
    (context : ConversationContext) (message : String) : Option String :=
  let joined := String.intercalate ", " triage.detected_symptoms
  storage
    { patientId := context.patient_id
      severity := severity_map_get triage.severity_level
      symptoms := if joined = "" then ⟨message.data.take 500⟩ else joined
      contactNumber := orDefault context.patient_phone "UNKNOWN"
      notes := triage.triage_notes }

/-- Embedding of `EmergencyOrchestrator._build_patient_guidance`. -/
def build_patient_guidance (triage : TriageResult) : String :=
  String.join
    ((if triage.severity_level = "CRITICAL" then
        ["🚨 **EMERGENCY — IMMEDIATE ACTION REQUIRED**\n\n**Call 108 (Emergency Services) NOW.**\n"]
      else if triage.severity_level = "URGENT" then
        ["⚠️ **URGENT — Please seek medical attention soon.**\n"]
      else []) ++
     ["**Severity Assessment:** " ++ triage.severity_level ++
        "\n**Recommended Department:** " ++ triage.recommended_department ++ "\n"] ++
     (if triage.needs_ambulance then
        ["\n🚑 **Ambulance recommended.** Our team has been alerted. Please share your location.\n"]
      else []) ++
     (if triage.first_aid_tips ≠ [] then
        "\n**While waiting for help:**\n" ::
          (triage.first_aid_tips.take 5).map (fun tip => "• " ++ tip ++ "\n")
      else []) ++
     ["\n⚕️ *This is an automated triage assessment. A healthcare professional will confirm the evaluation.*"])

/-- Embedding of `EmergencyOrchestrator._build_escalation_message` (the
severity score prints in hundredths rather than as a Python float). -/
def build_escalation_message (triage : TriageResult) (context : ConversationContext)
    (emergency_id : Option String) (nowIso : String) : String :=
  "🚨 EMERGENCY ALERT — Case #" ++ orDefault emergency_id "PENDING" ++ "\n" ++
  "Severity: " ++ triage.severity_level ++ " (Score: " ++
    toString triage.severity_score ++ ")\n" ++
  "Symptoms: " ++ String.intercalate ", " triage.detected_symptoms ++ "\n" ++
  "Department: " ++ triage.recommended_department ++ "\n" ++
  "Patient: " ++ orDefault context.patient_name "Unknown" ++ "\n" ++
  "Phone: " ++ orDefault context.patient_phone "Unknown" ++ "\n" ++
  "Session: " ++ context.session_id ++ "\n" ++
  "Ambulance Required: " ++ (if triage.needs_ambulance then "YES" else "No") ++ "\n" ++
  "Time: " ++ nowIso

/-- Embedding of `EmergencyOrchestrator.evaluate_and_respond`. -/
def evaluate_and_respond (storage : CaseStorage) (nowIso message : String)
    (context : ConversationContext) : EmergencyAction :=
  let triage := assess message
  let is_emergency := decide (triage.severity_level = "CRITICAL")
  let is_urgent := decide (triage.severity_level = "URGENT")
  let guidance := build_patient_guidance triage
  let emergency_id :=
    if is_emergency || is_urgent then
      create_emergency_case storage triage context message
    else none
  let escalation :=
    if is_emergency then
      build_escalation_message triage context emergency_id nowIso
    else ""
  { is_emergency := is_emergency
    triage := triage
    dispatch_ambulance := triage.needs_ambulance
    alert_staff := is_emergency
    escalation_message := escalation
    patient_guidance := guidance
    emergency_case_id := emergency_id }

/-- C7: for every message and context, `alert_staff` is true exactly when the
triage severity level is CRITICAL, `dispatch_ambulance` equals the triage's
needs_ambulance flag, and when the case-storage collaborator fails the call
still returns normally with the case id absent. -/
theorem evaluate_and_respond_flags (storage : CaseStorage) (nowIso message : String)
    (context : ConversationContext) :
    ((evaluate_and_respond storage nowIso message context).alert_staff = true ↔
      (assess message).severity_level = "CRITICAL") ∧
    (evaluate_and_respond storage nowIso message context).dispatch_ambulance =
      (assess message).needs_ambulance ∧
    ((∀ d, storage d = none) →
      (evaluate_and_respond storage nowIso message context).emergency_case_id = none) := by
  refine ⟨?_, rfl, ?_⟩
  · show decide ((assess message).severity_level = "CRITICAL") = true ↔ _
    exact decide_eq_true_iff
  · intro hfail
    show (if decide ((assess message).severity_level = "CRITICAL") ||
            decide ((assess message).severity_level = "URGENT") then
          create_emergency_case storage (assess message) context message
         else none) = none
    split
    · unfold create_emergency_case
      exact hfail _
    · rfl

/-- Witness for C7 at a concrete failing storage collaborator. -/
theorem evaluate_and_respond_flags_witness :
    (((evaluate_and_respond (fun _ => none) "2026-03-01T09:00:00" "I have chest pain"
        ⟨"s1", none, none, none⟩).alert_staff = true ↔
      (assess "I have chest pain").severity_level = "CRITICAL") ∧
     (evaluate_and_respond (fun _ => none) "2026-03-01T09:00:00" "I have chest pain"
        ⟨"s1", none, none, none⟩).dispatch_ambulance =
      (assess "I have chest pain").needs_ambulance ∧
     ((∀ d, (fun _ => none : CaseStorage) d = none) →
       (evaluate_and_respond (fun _ => none) "2026-03-01T09:00:00" "I have chest pain"
          ⟨"s1", none, none, none⟩).emergency_case_id = none)) ∧
    (evaluate_and_respond (fun _ => none) "2026-03-01T09:00:00" "I have chest pain"
        ⟨"s1", none, none, none⟩).emergency_case_id = none :=
  ⟨evaluate_and_respond_flags (fun _ => none) "2026-03-01T09:00:00" "I have chest pain"
      ⟨"s1", none, none, none⟩,
   (evaluate_and_respond_flags (fun _ => none) "2026-03-01T09:00:00" "I have chest pain"
      ⟨"s1", none, none, none⟩).2.2 (fun _ => rfl)⟩

/-! Guardrail filter (`app/ai_engine/guardrails.py`).  The Python `re`
patterns used there are built from literal text, `\w+`, `\d+`, simple
alternations of literals, and one bounded gap `.{0,20}`; they are embedded by
a small executable matcher over that exact token language, with
case-insensitive literal comparison mirroring `re.IGNORECASE`, greedy
longest-first backtracking for the quantified classes, and Python's
leftmost-scan non-overlapping replacement for `re.sub`. -/

/-- Character classes appearing in the guardrail patterns (`\w`, `\d`, and
the default `.` which excludes newline); the repository's texts are ASCII, so
`\w` is modelled as alphanumeric-or-underscore. -/
inductive CharCls where
  | word
  | digit
  | dot
deriving DecidableEq

/-- Membership test of a character class. -/
def CharCls.test : CharCls → Char → Bool
  | CharCls.word, c => c.isAlphanum || c == '_'
  | CharCls.digit, c => c.isDigit
  | CharCls.dot, c => c != '\n'

/-- Token language covering every guardrail pattern: case-insensitive
literals, `cls+`, `cls{0,n}`, and alternation of literals. -/
inductive Tok where
  | lit (l : List Char)
  | plus (c : CharCls)
  | upTo (n : ℕ) (c : CharCls)
  | alt (alts : List (List Char))

/-- Case-insensitive literal prefix test (`re.IGNORECASE`); the pattern
literal is stored lower-cased. -/
def litPre (l s : List Char) : Bool :=
  match l, s with
  | [], _ => true
  | _ :: _, [] => false
  | p :: l', c :: s' => c.toLower == p && litPre l' s'

/-- Length of the leading run of characters satisfying a class. -/
def countLeading (c : CharCls) : List Char → ℕ
  | [] => 0
  | ch :: t => if c.test ch then countLeading c t + 1 else 0

/-- Match a token sequence against a prefix of `s`, returning the number of
characters consumed; quantifiers are greedy and backtrack longest-first, and
alternatives are tried in order, as in Python `re`. -/
def matchToks : List Tok → List Char → Option ℕ
  | [], _ => some 0
  | Tok.lit l :: ts, s =>
    if litPre l s then (matchToks ts (s.drop l.length)).map (fun m => m + l.length)
    else none
  | Tok.alt alts :: ts, s =>
    (alts.filterMap (fun l =>
      if litPre l s then (matchToks ts (s.drop l.length)).map (fun m => m + l.length)
      else none)).head?
  | Tok.plus c :: ts, s =>
    let k := countLeading c s
    ((List.range k).filterMap (fun i =>
      (matchToks ts (s.drop (k - i))).map (fun m => m + (k - i)))).head?
  | Tok.upTo n c :: ts, s =>
    let k := min n (countLeading c s)
    ((List.range (k + 1)).filterMap (fun i =>
      (matchToks ts (s.drop (k - i))).map (fun m => m + (k - i)))).head?

/-- Model of `re.sub` with fuel (one unit per consumed character): scan left
to right, replace each leftmost match and continue after it.  A hypothetical
zero-width match is treated as no match; every guardrail pattern starts with
a non-empty literal, so none arises. -/
def substAux (p : List Tok) (repl : List Char) : ℕ → List Char → List Char
  | _, [] => []
  | 0, s => s
  | fuel + 1, c :: rest =>
    match matchToks p (c :: rest) with
    | some (n + 1) => repl ++ substAux p repl fuel (rest.drop n)
    | _ => c :: substAux p repl fuel rest

/-- Model of `re.sub pattern repl s` (fuel instantiated to the length). -/
def subst (p : List Tok) (repl s : List Char) : List Char :=
  substAux p repl s.length s

/-- Model of `re.search`: does the pattern match starting at any position. -/
def reSearch (p : List Tok) (s : List Char) : Bool :=
  (List.range (s.length + 1)).any (fun i => (matchToks p (s.drop i)).isSome)

/-- Diagnosis-style patterns `DIAGNOSIS_PATTERNS` (`guardrails.py`, lines
13-21). -/
def DIAGNOSIS_PATTERNS : List (List Tok) :=
  [[Tok.lit "you have ".data, Tok.plus CharCls.word],
   [Tok.lit "you are suffering from".data],
   [Tok.lit "diagnosed with".data],
   [Tok.lit "this is ".data, Tok.alt ["likely".data, "probably".data, "definitely".data],
    Tok.lit " ".data, Tok.plus CharCls.word],
   [Tok.lit "it sounds like you have".data],
   [Tok.lit "you might have".data],
   [Tok.lit "this could be ".data, Tok.plus CharCls.word, Tok.lit " disease".data]]

/-- Prescription-style patterns `PRESCRIPTION_PATTERNS` (`guardrails.py`,
lines 23-31). -/
def PRESCRIPTION_PATTERNS : List (List Tok) :=
  [[Tok.lit "take ".data, Tok.plus CharCls.digit, Tok.lit " mg".data],
   [Tok.lit "you should take ".data, Tok.plus CharCls.word, Tok.lit " medication".data],
   [Tok.lit "prescribe".data],
   [Tok.lit "dosage".data],
   [Tok.lit "take ".data,
    Tok.alt ["aspirin".data, "ibuprofen".data, "paracetamol".data, "acetaminophen".data]],
   [Tok.lit "medication for ".data, Tok.plus CharCls.word],
   [Tok.lit "i recommend taking".data]]

/-- Unsafe-reassurance patterns `UNSAFE_CLAIM_PATTERNS` (`guardrails.py`,
lines 33-41). -/
def UNSAFE_CLAIM_PATTERNS : List (List Tok) :=
  [[Tok.lit "don't worry".data, Tok.upTo 20 CharCls.dot, Tok.lit "not serious".data],
   [Tok.lit "nothing to worry about".data],
   [Tok.lit "this is not an emergency".data],
   [Tok.lit "you don't need to see a doctor".data],
   [Tok.lit "no need for hospital".data],
   [Tok.lit "home remedy will cure".data],
   [Tok.lit "guaranteed to work".data]]

/-- Medical disclaimer `MEDICAL_DISCLAIMER` (`guardrails.py`, lines 44-48). -/
def MEDICAL_DISCLAIMER : String :=
  "\n\n⚕️ *Please note: I'm an AI hospital assistant and cannot provide medical diagnosis or prescriptions. For medical concerns, please consult with a healthcare professional or visit the hospital.*"

/-- Replacement text for matched diagnosis patterns. -/
def DIAG_REPL : String := "[I cannot make diagnoses - please consult a doctor]"

/-- Replacement text for matched prescription patterns. -/
def PRESC_REPL : String := "[I cannot prescribe medications - please consult a doctor]"

/-- Replacement text for matched unsafe-claim patterns. -/
def UNSAFE_REPL : String := "[Please seek professional medical advice]"

/-- One guardrail family pass: for each pattern, if it occurs in the
ORIGINAL response (`re.search(pattern, response, ...)` in the source), apply
the substitution to the accumulated filtered text and set the modified
flag. -/
def applyFamily (patterns : List (List Tok)) (repl response : List Char)
    (st : List Char × Bool) : List Char × Bool :=
  patterns.foldl
    (fun st p => if reSearch p response then (subst p repl st.1, true) else st) st

/-- Substitution stage of `check_guardrails`: the three pattern families in
source order, threading (filtered text, modified flag). -/
def guardrail_substitutions (response : List Char) : List Char × Bool :=
  applyFamily UNSAFE_CLAIM_PATTERNS UNSAFE_REPL.data response
    (applyFamily PRESCRIPTION_PATTERNS PRESC_REPL.data response
      (applyFamily DIAGNOSIS_PATTERNS DIAG_REPL.data response (response, false)))

/-- Symptom keywords triggering the disclaimer (`guardrails.py`, line 101). -/
def symptom_keywords : List String :=
  ["pain", "fever", "bleeding", "symptom", "condition", "suffer"]

/-- Embedding of `check_guardrails`: substitution stage, then disclaimer
append guarded by keyword presence in the lower-cased original and by the
disclaimer's absence from the filtered text. -/
def check_guardrails (response : String) : String × Bool :=
  let st := guardrail_substitutions response.data
  if symptom_keywords.any (fun kw => pyContains (pyLower response) kw) then
    if listSub MEDICAL_DISCLAIMER.data st.1 then (⟨st.1⟩, st.2)
    else (⟨st.1 ++ MEDICAL_DISCLAIMER.data⟩, true)
  else (⟨st.1⟩, st.2)

/-- Token check used to show matched spans never contain a newline. -/
def tokNoNlB : Tok → Bool
  | Tok.lit l => decide ('\n' ∉ l)
  | Tok.plus _ => true
  | Tok.upTo _ _ => true
  | Tok.alt alts => alts.all (fun l => decide ('\n' ∉ l))

lemma cls_not_newline : ∀ c : CharCls, c.test '\n' = false := by
  intro c
  cases c <;> rfl

lemma head?_filterMap_some {α β : Type} {l : List α} {f : α → Option β} {y : β}
    (h : (l.filterMap f).head? = some y) : ∃ x ∈ l, f x = some y := by
  induction l with
  | nil => simp at h
  | cons a t ih =>
    rw [List.filterMap_cons] at h
    cases hfa : f a with
    | none =>
      rw [hfa] at h
      obtain ⟨x, hx, hfx⟩ := ih h
      exact ⟨x, List.mem_cons_of_mem _ hx, hfx⟩
    | some b =>
      rw [hfa] at h
      simp only [List.head?_cons, Option.some.injEq] at h
      exact ⟨a, List.mem_cons_self _ _, by rw [hfa, h]⟩

lemma litPre_no_newline : ∀ {l s : List Char}, '\n' ∉ l → litPre l s = true →
    ∀ c ∈ s.take l.length, c ≠ '\n' := by
  intro l
  induction l with
  | nil => intro s _ _ c hc; simp at hc
  | cons p l' ih =>
    intro s hl hpre c hc
    cases s with
    | nil => simp [litPre] at hpre
    | cons ch s' =>
      rw [litPre, Bool.and_eq_true, beq_iff_eq] at hpre
      rw [List.length_cons, List.take_succ_cons] at hc
      rcases List.mem_cons.mp hc with rfl | hc'
      · intro hch
        apply hl
        rw [← hpre.1, hch]
        exact List.mem_cons_self _ _
      · exact ih (fun hm => hl (List.mem_cons_of_mem _ hm)) hpre.2 c hc'

lemma countLeading_take : ∀ {s : List Char} {c : CharCls} {j : ℕ},
    j ≤ countLeading c s → ∀ ch ∈ s.take j, c.test ch = true := by
  intro s
  induction s with
  | nil => intro c j hj ch hch; simp [countLeading] at hj; subst hj; simp at hch
  | cons a t ih =>
    intro c j hj ch hch
    cases j with
    | zero => simp at hch
    | succ j' =>
      rw [countLeading] at hj
      by_cases ha : c.test a = true
      · rw [if_pos ha] at hj
        rw [List.take_succ_cons] at hch
        rcases List.mem_cons.mp hch with rfl | hch'
        · exact ha
        · exact ih (Nat.le_of_succ_le_succ hj) ch hch'
      · rw [if_neg ha] at hj
        omega

lemma take_no_newline_of_cls {s : List Char} {c : CharCls} {j : ℕ}
    (hj : j ≤ countLeading c s) : ∀ ch ∈ s.take j, ch ≠ '\n' := by
  intro ch hch h
  have := countLeading_take hj ch hch
  rw [h, cls_not_newline] at this
  cases this

/-- Matched spans of a newline-free pattern contain no newline character. -/
lemma matchToks_no_newline :
    ∀ (toks : List Tok), (∀ tok ∈ toks, tokNoNlB tok = true) →
    ∀ (s : List Char) (n : ℕ), matchToks toks s = some n →
    ∀ ch ∈ s.take n, ch ≠ '\n' := by
  intro toks
  induction toks with
  | nil =>
    intro _ s n h ch hch
    rw [matchToks] at h
    obtain rfl := Option.some.inj h
    simp at hch
  | cons tok ts ih =>
    intro hall s n hm ch hch
    have hts := fun x hx => hall x (List.mem_cons_of_mem _ hx)
    have htok := hall tok (List.mem_cons_self _ _)
    cases tok with
    | lit l =>
      rw [matchToks] at hm
      by_cases hp : litPre l s = true
      · rw [if_pos hp] at hm
        obtain ⟨m, hm', rfl⟩ := Option.map_eq_some'.mp hm
        rw [show m + l.length = l.length + m from Nat.add_comm _ _,
          List.take_add] at hch
        rcases List.mem_append.mp hch with h1 | h2
        · exact litPre_no_newline (of_decide_eq_true (by simpa [tokNoNlB] using htok))
            hp ch h1
        · exact ih hts _ m hm' ch h2
      · rw [if_neg hp] at hm; cases hm
    | alt alts =>
      rw [matchToks] at hm
      obtain ⟨l, hl, hfl⟩ := head?_filterMap_some hm
      by_cases hp : litPre l s = true
      · rw [if_pos hp] at hfl
        obtain ⟨m, hm', rfl⟩ := Option.map_eq_some'.mp hfl
        rw [show m + l.length = l.length + m from Nat.add_comm _ _,
          List.take_add] at hch
        rcases List.mem_append.mp hch with h1 | h2
        · have hlnl : '\n' ∉ l :=
            (by simpa [tokNoNlB] using htok : ∀ x ∈ alts, '\n' ∉ x) l hl
          exact litPre_no_newline hlnl hp ch h1
        · exact ih hts _ m hm' ch h2
      · rw [if_neg hp] at hfl; cases hfl
    | plus c =>
      simp only [matchToks] at hm
      obtain ⟨i, hi, hfi⟩ := head?_filterMap_some hm
      obtain ⟨m, hm', rfl⟩ := Option.map_eq_some'.mp hfi
      rw [show m + (countLeading c s - i) = (countLeading c s - i) + m from
        Nat.add_comm _ _, List.take_add] at hch
      rcases List.mem_append.mp hch with h1 | h2
      · exact take_no_newline_of_cls (Nat.sub_le _ _) ch h1
      · exact ih hts _ m hm' ch h2
    | upTo nb c =>
      simp only [matchToks] at hm
      obtain ⟨i, hi, hfi⟩ := head?_filterMap_some hm
      obtain ⟨m, hm', rfl⟩ := Option.map_eq_some'.mp hfi
      rw [show m + (min nb (countLeading c s) - i) =
          (min nb (countLeading c s) - i) + m from Nat.add_comm _ _,
        List.take_add] at hch
      rcases List.mem_append.mp hch with h1 | h2
      · exact take_no_newline_of_cls
          (le_trans (Nat.sub_le _ _) (Nat.min_le_right _ _)) ch h1
      · exact ih hts _ m hm' ch h2

lemma substAux_zero (p : List Tok) (repl s : List Char) :
    substAux p repl 0 s = s := by
  cases s <;> rfl

lemma substAux_no_match (p : List Tok) (repl : List Char) :
    ∀ (fuel : ℕ) (d : List Char), (∀ i, matchToks p (d.drop i) = none) →
    substAux p repl fuel d = d := by
  intro fuel
  induction fuel with
  | zero => intro d _; exact substAux_zero p repl d
  | succ f ih =>
    intro d hd
    cases d with
    | nil => rfl
    | cons c rest =>
      rw [substAux]
      have h0 := hd 0
      rw [List.drop_zero] at h0
      rw [h0]
      have : ∀ i, matchToks p (rest.drop i) = none := by
        intro i
        have := hd (i + 1)
        rwa [List.drop_succ_cons] at this
      rw [ih rest this]

/-- Substitution preserves a suffix `d` whose first character is a newline,
provided the pattern's matches never contain a newline and the pattern does
not match at any position inside `d`: no replacement can touch `d`. -/
lemma substAux_preserves_suffix (p : List Tok) (repl d : List Char)
    (hnl : ∀ (s : List Char) (n : ℕ), matchToks p s = some n →
      ∀ ch ∈ s.take n, ch ≠ '\n')
    (hd : ∀ i, matchToks p (d.drop i) = none)
    (hhead : d.head? = some '\n') :
    ∀ (fuel : ℕ) (a : List Char),
      ∃ a', substAux p repl fuel (a ++ d) = a' ++ d := by
  intro fuel
  induction fuel with
  | zero => intro a; exact ⟨a, substAux_zero p repl (a ++ d)⟩
  | succ f ih =>
    intro a
    cases a with
    | nil =>
      exact ⟨[], substAux_no_match p repl (f + 1) d hd⟩
    | cons c a' =>
      rw [List.cons_append, substAux]
      cases hm : matchToks p (c :: (a' ++ d)) with
      | none =>
        obtain ⟨a'', ha''⟩ := ih a'
        exact ⟨c :: a'', by rw [ha'']; rfl⟩
      | some n =>
        cases n with
        | zero =>
          obtain ⟨a'', ha''⟩ := ih a'
          exact ⟨c :: a'', by rw [ha'']; rfl⟩
        | succ m =>
          have hle : m + 1 ≤ (c :: a').length := by
            by_contra hgt
            push_neg at hgt
            obtain ⟨dt, rfl⟩ : ∃ dt, d = '\n' :: dt := by
              cases d with
              | nil => cases hhead
              | cons x xs => exact ⟨xs, by cases Option.some.inj hhead; rfl⟩
            have hmem : '\n' ∈ (c :: (a' ++ '\n' :: dt)).take (m + 1) := by
              rw [show (c :: (a' ++ '\n' :: dt)) = (c :: a') ++ '\n' :: dt from rfl,
                List.take_append_eq_append_take]
              apply List.mem_append.mpr
              right
              have hpos : 0 < m + 1 - (c :: a').length := by omega
              cases hk : m + 1 - (c :: a').length with
              | zero => omega
              | succ k => rw [List.take_succ_cons]; exact List.mem_cons_self _ _
            exact hnl _ _ hm '\n' hmem rfl
          have hm' : m ≤ a'.length := by
            rw [List.length_cons] at hle
            omega
          obtain ⟨a'', ha''⟩ := ih (a'.drop m)
          refine ⟨repl ++ a'', ?_⟩
          show repl ++ substAux p repl f ((a' ++ d).drop m) = (repl ++ a'') ++ d
          rw [show (a' ++ d).drop m = a'.drop m ++ d by
              rw [List.drop_append_eq_append_drop, Nat.sub_eq_zero_of_le hm',
                List.drop_zero],
            ha'', List.append_assoc]

/-- Suffix preservation for `subst` itself. -/
lemma subst_preserves_suffix (p : List Tok) (repl d : List Char)
    (hnl : ∀ (s : List Char) (n : ℕ), matchToks p s = some n →
      ∀ ch ∈ s.take n, ch ≠ '\n')
    (hd : ∀ i, matchToks p (d.drop i) = none)
    (hhead : d.head? = some '\n') (a : List Char) :
    ∃ a', subst p repl (a ++ d) = a' ++ d :=
  substAux_preserves_suffix p repl d hnl hd hhead (a ++ d).length a

/-- Exact (case-sensitive) suffix test, mirroring a `str.endswith`-style
check; used only to state the idempotence property. -/
def listSuffix (n h : List Char) : Bool :=
  listPre n.reverse h.reverse

lemma listPre_exact : ∀ {n h : List Char}, listPre n h = true → ∃ t, h = n ++ t := by
  intro n
  induction n with
  | nil => intro h _; exact ⟨h, rfl⟩
  | cons p n' ih =>
    intro h hp
    cases h with
    | nil => simp [listPre] at hp
    | cons c h' =>
      rw [listPre, Bool.and_eq_true, beq_iff_eq] at hp
      obtain ⟨t, ht⟩ := ih hp.2
      exact ⟨t, by rw [ht, List.cons_append, hp.1]⟩

lemma listPre_self_append : ∀ (n t : List Char), listPre n (n ++ t) = true := by
  intro n t
  induction n with
  | nil => rfl
  | cons p n' ih =>
    rw [List.cons_append, listPre]
    simp [ih]

lemma listSuffix_iff {n h : List Char} : listSuffix n h = true ↔ ∃ a, h = a ++ n := by
  constructor
  · intro hp
    obtain ⟨t, ht⟩ := listPre_exact hp
    refine ⟨t.reverse, ?_⟩
    have hrev := congrArg List.reverse ht
    simpa [List.reverse_append] using hrev
  · rintro ⟨a, rfl⟩
    unfold listSuffix
    rw [List.reverse_append]
    exact listPre_self_append _ _

lemma listSub_of_suffix {n h : List Char} (hs : ∃ a, h = a ++ n) :
    listSub n h = true := by
  obtain ⟨a, rfl⟩ := hs
  induction a with
  | nil =>
    cases n with
    | nil => rfl
    | cons c t =>
      rw [List.nil_append, listSub]
      have hpre := listPre_self_append (c :: t) []
      rw [List.append_nil] at hpre
      rw [hpre, Bool.true_or]
  | cons c a' ih =>
    rw [List.cons_append, listSub, ih, Bool.or_true]

/-- Full guardrail pattern set, in source order. -/
def ALL_GUARD_PATTERNS : List (List Tok) :=
  DIAGNOSIS_PATTERNS ++ PRESCRIPTION_PATTERNS ++ UNSAFE_CLAIM_PATTERNS

set_option maxRecDepth 400000 in
/-- Concrete facts about the guardrail patterns: no pattern literal or class
accepts a newline, and no pattern matches at any position inside the medical
disclaimer (both verified by evaluation). -/
lemma guard_patterns_facts :
    (ALL_GUARD_PATTERNS.all (fun p => p.all tokNoNlB)) = true ∧
    (ALL_GUARD_PATTERNS.all (fun p =>
      (List.range (MEDICAL_DISCLAIMER.data.length + 1)).all (fun i =>
        (matchToks p (MEDICAL_DISCLAIMER.data.drop i)).isNone))) = true :=
  ⟨rfl, rfl⟩

lemma pattern_no_newline {p : List Tok} (hp : p ∈ ALL_GUARD_PATTERNS) :
    ∀ tok ∈ p, tokNoNlB tok = true :=
  List.all_eq_true.mp (List.all_eq_true.mp guard_patterns_facts.1 p hp)

lemma pattern_no_match_disclaimer {p : List Tok} (hp : p ∈ ALL_GUARD_PATTERNS) :
    ∀ i, matchToks p (MEDICAL_DISCLAIMER.data.drop i) = none := by
  intro i
  have hall := List.all_eq_true.mp (List.all_eq_true.mp guard_patterns_facts.2 p hp)
  by_cases hi : i ≤ MEDICAL_DISCLAIMER.data.length
  · exact Option.isNone_iff_eq_none.mp
      (hall i (List.mem_range.mpr (by omega)))
  · have h1 : MEDICAL_DISCLAIMER.data.drop i = [] :=
      List.drop_eq_nil_of_le (by omega)
    have h2 : MEDICAL_DISCLAIMER.data.drop MEDICAL_DISCLAIMER.data.length = [] :=
      List.drop_eq_nil_of_le (le_refl _)
    rw [h1, ← h2]
    exact Option.isNone_iff_eq_none.mp
      (hall MEDICAL_DISCLAIMER.data.length (List.mem_range.mpr (by omega)))

lemma disclaimer_head :
    MEDICAL_DISCLAIMER.data.head? = some '\n' := rfl

/-- One family pass preserves the disclaimer suffix of the filtered text. -/
lemma applyFamily_preserves_suffix (patterns : List (List Tok))
    (repl response : List Char) (hpat : ∀ p ∈ patterns, p ∈ ALL_GUARD_PATTERNS) :
    ∀ st : List Char × Bool, (∃ a, st.1 = a ++ MEDICAL_DISCLAIMER.data) →
    ∃ a', (applyFamily patterns repl response st).1 = a' ++ MEDICAL_DISCLAIMER.data := by
  induction patterns with
  | nil => intro st h; exact h
  | cons p ps ih =>
    intro st h
    have hp := hpat p (List.mem_cons_self _ _)
    have hps := fun q hq => hpat q (List.mem_cons_of_mem _ hq)
    unfold applyFamily
    rw [List.foldl_cons]
    apply ih hps
    by_cases hsearch : reSearch p response = true
    · rw [if_pos hsearch]
      obtain ⟨a, ha⟩ := h
      rw [ha]
      exact subst_preserves_suffix p repl MEDICAL_DISCLAIMER.data
        (matchToks_no_newline p (pattern_no_newline hp))
        (pattern_no_match_disclaimer hp) disclaimer_head a
    · rw [if_neg hsearch]
      exact h

/-- The whole substitution stage preserves the disclaimer suffix. -/
lemma guardrail_substitutions_preserve_suffix (response : List Char)
    (h : ∃ a, response = a ++ MEDICAL_DISCLAIMER.data) :
    ∃ a', (guardrail_substitutions response).1 = a' ++ MEDICAL_DISCLAIMER.data := by
  unfold guardrail_substitutions
  apply applyFamily_preserves_suffix
  · intro q hq
    simp [ALL_GUARD_PATTERNS, List.mem_append]
    tauto
  apply applyFamily_preserves_suffix
  · intro q hq
    simp [ALL_GUARD_PATTERNS, List.mem_append]
    tauto
  apply applyFamily_preserves_suffix
  · intro q hq
    simp [ALL_GUARD_PATTERNS, List.mem_append]
    tauto
  exact h

/-- Core of C8: on an input that already carries the disclaimer as a suffix,
`check_guardrails` performs its substitutions but does not append the
disclaimer again, and the disclaimer remains a suffix of the output. -/
lemma check_guardrails_no_append (f : String)
    (hf : ∃ a, f.data = a ++ MEDICAL_DISCLAIMER.data) :
    (check_guardrails f).1.data = (guardrail_substitutions f.data).1 ∧
    ∃ a', (check_guardrails f).1.data = a' ++ MEDICAL_DISCLAIMER.data := by
  obtain ⟨a', hsub⟩ := guardrail_substitutions_preserve_suffix f.data hf
  have hin : listSub MEDICAL_DISCLAIMER.data (guardrail_substitutions f.data).1 = true :=
    listSub_of_suffix ⟨a', hsub⟩
  have h1 : (check_guardrails f).1.data = (guardrail_substitutions f.data).1 := by
    by_cases hkw : (symptom_keywords.any fun kw => pyContains (pyLower f) kw) = true
    · simp only [check_guardrails, hkw, if_true, hin]
    · simp only [check_guardrails, hkw, Bool.false_eq_true, if_false]
  exact ⟨h1, a', by rw [h1, hsub]⟩

/-- C8: applying `check_guardrails` to its own already-disclaimer-suffixed
output appends the medical disclaimer at most once — the second pass only
performs the substitution stage and keeps the disclaimer as a suffix without
duplicating it. -/
theorem check_guardrails_disclaimer_idempotent (t : String)
    (h : listSuffix MEDICAL_DISCLAIMER.data ((check_guardrails t).1).data = true) :
    ((check_guardrails ((check_guardrails t).1)).1).data =
      (guardrail_substitutions ((check_guardrails t).1).data).1 ∧
    listSuffix MEDICAL_DISCLAIMER.data
      ((check_guardrails ((check_guardrails t).1)).1).data = true := by
  obtain ⟨h1, a', h2⟩ := check_guardrails_no_append ((check_guardrails t).1)
    (listSuffix_iff.mp h)
  exact ⟨h1, listSuffix_iff.mpr ⟨a', h2⟩⟩

set_option maxRecDepth 400000 in
/-- Witness for C8: the first pass appends the disclaimer to a symptom
message; the second pass leaves it alone. -/
theorem check_guardrails_disclaimer_idempotent_witness :
    listSuffix MEDICAL_DISCLAIMER.data
      ((check_guardrails "I have pain in my arm").1).data = true ∧
    (((check_guardrails ((check_guardrails "I have pain in my arm").1)).1).data =
        (guardrail_substitutions ((check_guardrails "I have pain in my arm").1).data).1 ∧
      listSuffix MEDICAL_DISCLAIMER.data
        ((check_guardrails ((check_guardrails "I have pain in my arm").1)).1).data = true) :=
  ⟨rfl, check_guardrails_disclaimer_idempotent "I have pain in my arm" rfl⟩

end MedAssist
